import Mathlib

/-!
Verification development for the screening job-orchestration pipeline of
`src/api/routes/screening_v2.py` (the V2 background-task architecture).

The Python source is shallowly embedded: pure helpers become Lean functions
over `Rat` (Python floats) and `Int` (Python ints); the background task
`run_scanner_job` becomes a pure interpreter over an explicit environment
describing the outcomes of its external effects (TWS scan, enrichment data,
per-phase exceptions); the module-level job dictionary becomes explicit job
records passed through the functions that mutate them.
-/

namespace ScreeningV2

/-- Python `int(x)` on a float/rational: truncation toward zero. -/
def pytrunc (q : Rat) : Int :=
  if q < 0 then -(⌊-q⌋) else ⌊q⌋

/-- Model of Python `traceback.format_exc()`: a traceback rendering of the
exception message `e`.  It always begins with the fixed traceback header, so
it is never the empty string. -/
def pyTraceback (e : String) : String :=
  "Traceback (most recent call last): " ++ e

/-! ## Data model

`ScanStock` is one row returned by `TWSScannerSync.scan_most_active`
(symbol/rank/exchange/conid identity plus the price/volume/gap data the
scanner now returns directly).  `EnrichedStock` is the dictionary built by
the phase-2 loop of `run_scanner_job`, with the optional phase-3/4/5 fields
(`shortable_shares` … `catalyst`) that later phases may fill in. -/

structure ScanStock where
  symbol : String
  rank : Int
  exchange : String
  conid : Int
  gap_percent : Rat := 0
  last_price : Rat := 0
  previous_close : Rat := 0
  volume : Int := 0
deriving Repr, DecidableEq

structure EnrichedStock where
  symbol : String
  rank : Int
  exchange : String
  conid : Int
  gap_percent : Rat
  gap_direction : String
  pre_market_price : Rat
  previous_close : Rat
  pre_market_volume : Int
  momentum_score : Rat
  score : Int
  shortable_shares : Option Int := none
  borrow_difficulty : Option String := none
  short_fee_rate : Option Rat := none
  shares_outstanding : Option Int := none
  float_shares : Option Int := none
  avg_volume_20d : Option Int := none
  relative_volume : Option Rat := none
  reddit_mentions : Option Int := none
  reddit_sentiment : Option Rat := none
  reddit_sentiment_label : Option String := none
  news : Option (List String) := none
  catalyst : Option String := none
deriving Repr, DecidableEq

/-! ## Post-scan filtering (`apply_supernova_filters`, lines 37-99) -/

/-- The ETF symbols optionally excluded by `apply_supernova_filters`. -/
def ETF_SYMBOLS : List String :=
  ["SOXS", "SOXL", "TQQQ", "SQQQ", "SPXU", "SPXL", "UPRO",
   "TNA", "TZA", "LABU", "LABD", "NUGT", "DUST", "UVXY", "SVXY",
   "VXX", "ZSL", "AGQ", "UCO", "SCO", "SPY", "QQQ", "IWM", "DIA",
   "GLD", "SLV", "ARKK", "ARKG", "TMF", "TMV", "TECL", "TECS"]

/-- Filter thresholds, matching the keyword parameters of
`apply_supernova_filters` / `run_scanner_job` with their defaults.
`min_volume`, `min_price`, `max_price` and `max_results` are forwarded to
the external scanner only. -/
structure ScanParams where
  min_volume : Int := 100000
  max_volume : Int := 0
  min_price : Rat := 1
  max_price : Rat := 20
  max_results : Int := 20
  min_gap_percent : Rat := 10
  max_gap_percent : Rat := 100
  gap_direction : String := "up"
  exclude_etfs : Bool := false
deriving Repr, DecidableEq

/-- The per-stock body of the `for stock in stocks` loop of
`apply_supernova_filters`: `true` iff the stock survives every `continue`. -/
def stockPasses (p : ScanParams) (s : EnrichedStock) : Bool :=
  if p.exclude_etfs && (s.symbol.toUpper ∈ ETF_SYMBOLS) then false
  else if p.gap_direction == "up" && s.gap_direction != "up" then false
  else if p.gap_direction == "down" && s.gap_direction != "down" then false
  else if |s.gap_percent| < p.min_gap_percent then false
  else if p.max_gap_percent > 0 && |s.gap_percent| > p.max_gap_percent then false
  else if p.max_volume > 0 && s.pre_market_volume > p.max_volume then false
  else true

/-- `apply_supernova_filters`: keeps, in order, the stocks that survive all
active criteria. -/
def apply_supernova_filters (stocks : List EnrichedStock) (p : ScanParams) :
    List EnrichedStock :=
  stocks.filter (stockPasses p)

/-! ## Composite scoring -/

/-- The `bars_data` dictionary taken by `calculate_composite_score`; a field
that is `none` models a key absent from the dictionary (`bars_data.get`
then supplies the default `0`). -/
structure BarsData where
  gap_percent : Option Rat := none
  pre_market_volume : Option Int := none
  momentum_score : Option Rat := none
deriving Repr, DecidableEq

/-- `calculate_composite_score` (lines 235-277): rank bucket (≤ 40 pts),
gap-magnitude bucket (≤ 30 pts), volume bucket (≤ 20 pts), momentum bucket
(`int(momentum / 10)`), clamped above by 100. -/
def calculate_composite_score (rank : Int) (bars_data : BarsData) : Int :=
  let score : Int := 0
  let rank_score : Int := max 0 (40 - (rank - 1) * 2)
  let score := score + rank_score
  let gap : Rat := |bars_data.gap_percent.getD 0|
  let score := score +
    (if gap > 10 then 30 else if gap > 5 then 25
     else if gap > 3 then 20 else if gap > 1 then 10 else 0)
  let volume : Int := bars_data.pre_market_volume.getD 0
  let score := score +
    (if volume > 5000000 then 20 else if volume > 1000000 then 15
     else if volume > 500000 then 10 else if volume > 100000 then 5 else 0)
  let momentum : Rat := bars_data.momentum_score.getD 0
  let score := score + pytrunc (momentum / 10)
  min 100 score

/-- The inline score of the phase-2 enrichment loop (lines 360-364):
`int(max(0, 40 - rank*2) + min(30, abs(gap)*3) + min(30, volume/1e6*10))`. -/
def inlineScore (rank : Int) (gap : Rat) (volume : Int) : Int :=
  let rank_score : Rat := max 0 (40 - (rank : Rat) * 2)
  let gap_score : Rat := min 30 (|gap| * 3)
  let vol_score : Rat := min 30 ((volume : Rat) / 1000000 * 10)
  pytrunc (rank_score + gap_score + vol_score)

/-- The dictionary appended by the phase-2 loop for one scan row (lines
366-378). -/
def enrichStock (s : ScanStock) : EnrichedStock :=
  { symbol := s.symbol
    rank := s.rank
    exchange := s.exchange
    conid := s.conid
    gap_percent := s.gap_percent
    gap_direction := if s.gap_percent ≥ 0 then "up" else "down"
    pre_market_price := s.last_price
    previous_close := s.previous_close
    pre_market_volume := s.volume
    momentum_score := |s.gap_percent| * 10
    score := inlineScore s.rank s.gap_percent s.volume }

/-- The re-rank pass after filtering (lines 406-407), position-indexed from
`n`: `for i, stock in enumerate(filtered_stocks, n): stock['rank'] = i`. -/
def rerankFrom (n : Int) : List EnrichedStock → List EnrichedStock
  | [] => []
  | s :: rest => { s with rank := n } :: rerankFrom (n + 1) rest

/-- The re-rank pass after filtering (lines 406-407):
`for i, stock in enumerate(filtered_stocks, 1): stock['rank'] = i`. -/
def rerank (stocks : List EnrichedStock) : List EnrichedStock :=
  rerankFrom 1 stocks

/-! ## Connection-identifier allocator (lines 110-141)

The module holds two counters guarded by one lock; each call returns the
current counter then increments it, wrapping to the range floor past the
ceiling.  The lock makes each call atomic, so the reachable behaviours are
exactly the sequential ones modelled here: `(issued id, next counter)`. -/

def get_next_client_id (c : Nat) : Nat × Nat :=
  let client_id := c
  let c := c + 1
  let c := if c > 90 then 10 else c
  (client_id, c)

def get_next_enrich_client_id (c : Nat) : Nat × Nat :=
  let client_id := c
  let c := c + 1
  let c := if c > 199 then 100 else c
  (client_id, c)

/-- The primary counter after `k` allocations (initial value 10). -/
def primCounter : Nat → Nat
  | 0 => 10
  | k + 1 => (get_next_client_id (primCounter k)).2

/-- The identifier issued by the `k`-th primary allocation. -/
def primIssued (k : Nat) : Nat := (get_next_client_id (primCounter k)).1

/-- The enrichment counter after `k` allocations (initial value 100). -/
def enrichCounter : Nat → Nat
  | 0 => 100
  | k + 1 => (get_next_enrich_client_id (enrichCounter k)).2

/-- The identifier issued by the `k`-th enrichment allocation. -/
def enrichIssued (k : Nat) : Nat := (get_next_enrich_client_id (enrichCounter k)).1

/-! ## Job store records and eviction -/

/-- Job TTL for auto-cleanup, in seconds (`JOB_TTL_HOURS = 1`). -/
def JOB_TTL_SECONDS : Int := 3600

/-- The slice of a stored job record that `cleanup_old_jobs` inspects:
its status string and its creation timestamp (seconds, abstracting the
ISO-format `created_at`). -/
structure StoredJob where
  job_id : String
  status : String
  created_at : Int
deriving Repr, DecidableEq

/-- `cleanup_old_jobs` (lines 161-177): keep a job iff it is newer than the
cutoff (`now - 1 hour`) or still `queued`/`running`. -/
def cleanup_old_jobs (jobs : List StoredJob) (now : Int) : List StoredJob :=
  let cutoff := now - JOB_TTL_SECONDS
  jobs.filter (fun j =>
    decide (j.created_at > cutoff) ||
    (j.status == "queued" || j.status == "running"))

/-- `clear_jobs` (lines 833-854): keep only `queued`/`running` jobs. -/
def clear_jobs (jobs : List StoredJob) : List StoredJob :=
  jobs.filter (fun j => j.status == "queued" || j.status == "running")

/-! ## Phase 3: short data, float and relative volume (lines 414-553)

The per-symbol data streamed from TWS for one contract is modelled by
`TickerData`; `applyShortData` is the per-stock body of the phase-3 loop.
The loop only ever writes the optional fields `shortable_shares`,
`borrow_difficulty`, `short_fee_rate`, `shares_outstanding`,
`float_shares`, `avg_volume_20d` and `relative_volume`. -/

structure TickerData where
  /-- `getattr(ticker, 'shortableShares', None)`. -/
  shortableShares : Option Rat := none
  /-- price of the first entry of `ticker.ticks` with `tickType == 46` and
  positive price, when any. -/
  feeTickPrice : Option Rat := none
  /-- `ticker.fundamentalRatios.MKTCAP` (millions), when available. -/
  mktcap : Option Rat := none
  /-- `ticker.fundamentalRatios.NPRICE`, when available. -/
  nprice : Option Rat := none
  /-- the volumes of the 20-day daily bars; `none` models a failed or empty
  `reqHistoricalData` call. -/
  dailyVolumes : Option (List Int) := none

/-- Python `round(x, 2)`: round half to even at two decimal places. -/
def pyround2 (q : Rat) : Rat :=
  let scaled := q * 100
  let fl := ⌊scaled⌋
  let frac := scaled - (fl : Rat)
  let r : Int :=
    if frac < 1/2 then fl
    else if frac > 1/2 then fl + 1
    else if fl % 2 = 0 then fl else fl + 1
  (r : Rat) / 100

/-- Lines 453-464: shortable shares and the borrow-difficulty tier. -/
def shortableStage (t : TickerData) (s : EnrichedStock) : EnrichedStock :=
  match t.shortableShares with
  | some sh =>
    if sh > 0 then
      { s with shortable_shares := some (pytrunc sh),
               borrow_difficulty := some (
                 if sh < 100000 then "Very Hard"
                 else if sh < 1000000 then "Hard"
                 else if sh < 10000000 then "Moderate"
                 else "Easy") }
    else s
  | none => s

/-- Lines 466-475: borrow-fee rate from the tick-type-46 tick. -/
def feeStage (t : TickerData) (s : EnrichedStock) : EnrichedStock :=
  match t.feeTickPrice with
  | some pr => { s with short_fee_rate := some |pr| }
  | none => s

/-- Lines 477-495: shares outstanding and float estimated from MKTCAP. -/
def floatStage (t : TickerData) (s : EnrichedStock) : EnrichedStock :=
  match t.mktcap with
  | some m =>
    if m > 0 then
      let price :=
        match t.nprice with
        | some np => if np > 0 then np else s.pre_market_price
        | none => s.pre_market_price
      if price > 0 then
        let est_shares := pytrunc (m * 1000000 / price)
        { s with shares_outstanding := some est_shares,
                 float_shares := some (pytrunc ((est_shares : Rat) * (8 / 10))) }
      else s
    else s
  | none => s

/-- Lines 499-523: 20-day average volume and relative volume. -/
def relVolStage (t : TickerData) (s : EnrichedStock) : EnrichedStock :=
  match t.dailyVolumes with
  | some volsAll =>
    if !volsAll.isEmpty then
      let volumes := volsAll.filter (fun v => v > 0)
      if volumes.length ≥ 5 then
        let avg : Rat := ((volumes.foldl (· + ·) 0 : Int) : Rat) / (volumes.length : Rat)
        let s := { s with avg_volume_20d := some (pytrunc avg) }
        if avg > 0 then
          let rv := pyround2 ((s.pre_market_volume : Rat) / avg)
          { s with relative_volume := some rv }
        else s
      else s
    else s
  | none => s

/-- The per-stock body of the phase-3 enrichment loop (lines 435-531): the
four data-extraction blocks, in source order. -/
def applyShortData (t : TickerData) (s : EnrichedStock) : EnrichedStock :=
  relVolStage t (floatStage t (feeStage t (shortableStage t s)))

/-! ## Phase 4: Reddit sentiment (lines 555-591) -/

/-- The dictionary returned by `RedditSentimentClient.get_sentiment`, with
the defaults the phase-4 loop supplies through `.get`. -/
structure SentimentData where
  mentions_24h : Int := 0
  sentiment_score : Rat := 0
  sentiment_label : String := "NEUTRAL"

/-- The per-stock body of the phase-4 loop: always assigns all three
`reddit_*` fields. -/
def applySentimentData (d : SentimentData) (s : EnrichedStock) : EnrichedStock :=
  { s with reddit_mentions := some d.mentions_24h,
           reddit_sentiment := some d.sentiment_score,
           reddit_sentiment_label := some d.sentiment_label }

/-! ## Phase 5: news and catalyst detection (lines 593-673) -/

/-- `CATALYST_KEYWORDS` (lines 613-621), in dictionary insertion order. -/
def CATALYST_KEYWORDS : List (String × List String) :=
  [("earnings", ["earnings", "eps", "revenue", "quarterly", "q1", "q2", "q3", "q4",
                 "guidance", "beat", "miss"]),
   ("fda", ["fda", "approval", "drug", "trial", "phase", "clinical"]),
   ("merger", ["merger", "acquisition", "acquire", "buyout", "deal", "takeover"]),
   ("contract", ["contract", "awarded", "deal", "partnership", "agreement"]),
   ("offering", ["offering", "dilution", "shares", "secondary", "shelf"]),
   ("analyst", ["upgrade", "downgrade", "price target", "rating", "analyst"]),
   ("short_squeeze", ["short", "squeeze", "gamma", "wsb", "reddit", "meme"])]

/-- Python `kw in text` for a nonempty keyword: `splitOn` yields more than
one piece exactly when the keyword occurs as a substring. -/
def pyContains (text kw : String) : Bool :=
  (text.splitOn kw).length > 1

/-- `detect_catalyst` (lines 623-629). -/
def detect_catalyst (headlines : List String) : String :=
  let text := (String.intercalate " " headlines).toLower
  match CATALYST_KEYWORDS.find? (fun ck => ck.2.any (fun kw => pyContains text kw)) with
  | some ck => ck.1.toUpper
  | none => "UNKNOWN"

/-- The per-stock body of the phase-5 loop.  Its oracle argument is `none`
for a non-200 response or a per-stock exception (no assignment), and
`some articles` for a 200 response whose article list has the given
headlines (articles abstracted to their headline strings). -/
def applyNewsData (r : Option (List String)) (s : EnrichedStock) : EnrichedStock :=
  match r with
  | none => s
  | some articles =>
    if !articles.isEmpty then
      let arts := articles.take 3
      { s with news := some (arts.map (fun h => h.take 100)),
               catalyst := some (detect_catalyst arts) }
    else
      { s with news := some [], catalyst := some "NO_NEWS" }

/-! ## The job record and the background task `run_scanner_job` -/

/-- The job dictionary stored in the module-level `jobs` map (`ScanJob`
model, lines 220-232).  Timestamps are abstracted to integer seconds; the
append-only `flow_log` is omitted (no verified property reads it). -/
structure JobRecord where
  job_id : String
  status : String
  progress : Int
  message : String
  stocks_found : Nat
  created_at : Int
  completed_at : Option Int := none
  error : Option String := none
  stocks : Option (List EnrichedStock) := none
  warning : Option String := none
deriving Repr, DecidableEq

/-- The job record created by `start_screening_v2` (lines 741-754). -/
def freshJob (job_id : String) (created_at : Int) : JobRecord :=
  { job_id := job_id
    status := "queued"
    progress := 0
    message := "Job queued, waiting to start..."
    stocks_found := 0
    created_at := created_at }

/-- The pipeline phases of `run_scanner_job`, in source order. -/
inductive Phase where
  | scan
  | enrich
  | filtering
  | secondaryEnrich
  | sentiment
  | news
deriving Repr, DecidableEq

/-- The outcomes of the external effects of one `run_scanner_job` run.
Exceptions raised inside the phase-3/4/5 handlers are caught locally by the
source (`except Exception` at lines 552-553, 590-591 and 672-673) and are
therefore recoverable; an exception escaping the scan call or the phase-2
processing loop reaches the outer handler (lines 688-697) and is
unrecoverable.  `phase3Progress`/`phase4Progress` give how many stocks the
failing loop had already updated when its exception (for phase 3 e.g. the
60-second `future.result` timeout) was raised. -/
structure PipelineEnv where
  now : Int
  scanExc : Option String := none
  scanResults : List ScanStock := []
  enrichExc : Option String := none
  phase3Exc : Option String := none
  phase3Progress : Nat := 0
  shortData : String → Option TickerData := fun _ => none
  phase4Exc : Option String := none
  phase4Progress : Nat := 0
  sentimentData : String → SentimentData := fun _ => {}
  alpacaKeys : Bool := false
  phase5Exc : Option String := none
  newsData : String → Option (List String) := fun _ => none

/-- Update the first `k` stocks of a list in place, as a Python `for` loop
over `stocks[:k]` does. -/
def updateTake (k : Nat) (f : EnrichedStock → EnrichedStock)
    (l : List EnrichedStock) : List EnrichedStock :=
  (l.take k).map f ++ l.drop k

/-- The phase-3 loop over `filtered_stocks` (`fetch_short_data_sync`): a
normal run updates every stock from its streamed ticker data (a per-stock
exception, `shortData = none`, leaves that stock untouched); when the worker
raises (`phase3Exc`, e.g. the 60-second `future.result` timeout or a
connection error), only the `phase3Progress` stocks already processed are
updated and the exception is caught by the handler at lines 552-553. -/
def phase3Stocks (env : PipelineEnv) (l : List EnrichedStock) : List EnrichedStock :=
  let k := match env.phase3Exc with
    | none => l.length
    | some _ => env.phase3Progress
  updateTake k
    (fun s => match env.shortData s.symbol with
      | some t => applyShortData t s
      | none => s) l

/-- The phase-4 loop over `filtered_stocks[:5]`: a normal run updates the
first five stocks; an exception (caught at lines 590-591) leaves only the
`phase4Progress` stocks already processed updated. -/
def phase4Stocks (env : PipelineEnv) (l : List EnrichedStock) : List EnrichedStock :=
  let k := match env.phase4Exc with
    | none => 5
    | some _ => min env.phase4Progress 5
  updateTake k (fun s => applySentimentData (env.sentimentData s.symbol) s) l

/-- The phase-5 block: skipped without Alpaca keys, per-stock updates over
`filtered_stocks[:5]` otherwise; an exception escaping the per-stock
handlers is caught at lines 672-673. -/
def phase5Stocks (env : PipelineEnv) (l : List EnrichedStock) : List EnrichedStock :=
  match env.phase5Exc with
  | some _ => l
  | none =>
    if env.alpacaKeys then
      updateTake 5 (fun s => applyNewsData (env.newsData s.symbol) s) l
    else l

/-- The outer `except Exception` handler of `run_scanner_job`
(lines 688-697). -/
def failRecord (j : JobRecord) (e : String) (now : Int) : JobRecord :=
  { j with status := "failed"
           progress := 0
           message := "Error: " ++ e
           error := some (pyTraceback e)
           completed_at := some now }

/-- The completion block of `run_scanner_job` (lines 675-683). -/
def completeRecord (j : JobRecord) (stocks : List EnrichedStock)
    (tws_warning : Option String) (now : Int) : JobRecord :=
  let j := { j with status := "completed"
                    progress := 100
                    message := "Successfully found " ++ toString stocks.length ++ " stocks"
                    stocks_found := stocks.length
                    stocks := some stocks
                    completed_at := some now }
  match tws_warning with
  | some w => { j with warning := some w }
  | none => j

/-- The degraded-source warning attached when every stock lacks price data
(line 387). -/
def TWS_RESTART_WARNING : String :=
  "All historical data requests failed. Try restarting TWS Desktop."

/-- `run_scanner_job` (lines 280-700) as a pure interpreter: given the
environment of external outcomes, the filter parameters and the queued job
record, produce the terminal job record and the list of pipeline phases that
were executed (a phase whose guard `len(filtered_stocks) > 0` fails, or that
sits after an unrecoverable failure, is not executed). -/
def run_scanner_job (env : PipelineEnv) (p : ScanParams) (job : JobRecord) :
    JobRecord × List Phase :=
  let job := { job with status := "running", progress := 5 }
  let job := { job with progress := 10 }
  match env.scanExc with
  | some e => (failRecord job e env.now, [Phase.scan])
  | none =>
    let scan_results := env.scanResults
    if scan_results.isEmpty then
      ({ job with status := "completed"
                  progress := 100
                  message := "No stocks found matching criteria"
                  stocks_found := 0
                  completed_at := some env.now }, [Phase.scan])
    else
      let job := { job with progress := 30
                            message := "Found " ++ toString scan_results.length ++
                              " stocks, enriching data..." }
      match env.enrichExc with
      | some e => (failRecord job e env.now, [Phase.scan, Phase.enrich])
      | none =>
        let enriched_stocks := scan_results.map enrichStock
        let stocks_with_no_data :=
          (enriched_stocks.filter (fun s => s.pre_market_price == 0)).length
        let tws_warning : Option String :=
          if stocks_with_no_data == enriched_stocks.length &&
             enriched_stocks.length > 0 then
            some TWS_RESTART_WARNING
          else none
        let filtered_stocks := apply_supernova_filters enriched_stocks p
        let filtered_stocks := rerank filtered_stocks
        if filtered_stocks.length > 0 then
          let job := { job with progress := 70
                                message := "Getting short data for " ++
                                  toString filtered_stocks.length ++ " stocks..." }
          let filtered_stocks := phase3Stocks env filtered_stocks
          let job := { job with progress := 90
                                message := "Fetching Reddit sentiment..." }
          let filtered_stocks := phase4Stocks env filtered_stocks
          let job := { job with progress := 95
                                message := "Fetching news catalysts..." }
          let filtered_stocks := phase5Stocks env filtered_stocks
          (completeRecord job filtered_stocks tws_warning env.now,
           [Phase.scan, Phase.enrich, Phase.filtering,
            Phase.secondaryEnrich, Phase.sentiment, Phase.news])
        else
          (completeRecord job filtered_stocks tws_warning env.now,
           [Phase.scan, Phase.enrich, Phase.filtering])

/-! ## `get_latest_screening` (lines 806-830) -/

/-- Python truthiness of `job.get("stocks")`: `None` and `[]` are falsy. -/
def jobHasStocks (j : JobRecord) : Bool :=
  match j.stocks with
  | none => false
  | some l => !l.isEmpty

/-- The `completed_jobs` comprehension of `get_latest_screening`
(lines 815-818). -/
def completedJobsWithStocks (store : List JobRecord) : List JobRecord :=
  store.filter (fun j => j.status == "completed" && jobHasStocks j)

/-- Strict order on `completed_at` keys, with the missing timestamp (Python
default `""`) below every present one, matching ISO-string comparison. -/
def caLt (a b : Option Int) : Bool :=
  match a, b with
  | none, none => false
  | none, some _ => true
  | some _, none => false
  | some x, some y => decide (x < y)

/-- Python `max(jobs, key=lambda x: x.get("completed_at", ""))`: the first
element with the maximal key. -/
def pyMaxByCompletedAt : List JobRecord → Option JobRecord
  | [] => none
  | x :: xs =>
    some (xs.foldl (fun acc y => if caLt acc.completed_at y.completed_at then y else acc) x)

/-- `get_latest_screening`: `none` models the `no_data` response. -/
def get_latest_screening (store : List JobRecord) : Option JobRecord :=
  let completed_jobs := completedJobsWithStocks store
  pyMaxByCompletedAt completed_jobs

/-! ## Concrete example inputs used below -/

/-- A scan row with no gap and no volume (inline score 38 at rank 1). -/
def stockA : ScanStock :=
  { symbol := "AAA", rank := 1, exchange := "NASDAQ", conid := 101 }

/-- A scan row with a 20 % gap and 5 M volume (inline score 96 at rank 2). -/
def stockB : ScanStock :=
  { symbol := "BBB", rank := 2, exchange := "NASDAQ", conid := 102,
    gap_percent := 20, last_price := 5, previous_close := 4, volume := 5000000 }

/-- A scan row whose enrichment produced no price data (`last_price = 0`). -/
def zeroPriceStock : ScanStock :=
  { symbol := "ZZZ", rank := 1, exchange := "NYSE", conid := 103, gap_percent := 15 }

/-- An environment whose scan returns no candidates. -/
def emptyScanEnv : PipelineEnv := { now := 50 }

/-- An environment whose scan raises an unrecoverable exception. -/
def scanFailEnv : PipelineEnv :=
  { now := 60, scanExc := some "ConnectionRefusedError: TWS not reachable" }

/-- An environment in which the phase-3 worker exceeds its 60-second
`future.result` timeout after processing no stocks. -/
def timeoutEnv : PipelineEnv :=
  { now := 70, scanResults := [stockB],
    phase3Exc := some "TimeoutError: short data fetch exceeded 60s" }

/-- An environment whose scan returns a low-score stock ahead of a
high-score stock. -/
def unsortedEnv : PipelineEnv := { now := 80, scanResults := [stockA, stockB] }

/-- An environment in which every candidate lacks price data. -/
def degradedEnv : PipelineEnv := { now := 90, scanResults := [zeroPriceStock] }

/-- Parameters whose minimum-gap threshold lets every gap through. -/
def looseParams : ScanParams := { min_gap_percent := 0 }

/-- A job created at time 0 that is still `queued` long afterwards. -/
def oldQueuedJob : StoredJob := { job_id := "wq", status := "queued", created_at := 0 }

/-- Identity-and-ranking projection of a stock: the phase-3/4/5 loops only
write optional enrichment fields, so this triple is preserved by them. -/
def projSSR (s : EnrichedStock) : String × Int × Int := (s.symbol, s.score, s.rank)

end ScreeningV2

namespace ScreeningV2

/-! ## Helper lemmas -/

theorem completeRecord_status (j : JobRecord) (st : List EnrichedStock)
    (w : Option String) (now : Int) : (completeRecord j st w now).status = "completed" := by
  cases w <;> rfl

theorem completeRecord_progress (j : JobRecord) (st : List EnrichedStock)
    (w : Option String) (now : Int) : (completeRecord j st w now).progress = 100 := by
  cases w <;> rfl

theorem completeRecord_stocks (j : JobRecord) (st : List EnrichedStock)
    (w : Option String) (now : Int) : (completeRecord j st w now).stocks = some st := by
  cases w <;> rfl

theorem completeRecord_stocks_found (j : JobRecord) (st : List EnrichedStock)
    (w : Option String) (now : Int) :
    (completeRecord j st w now).stocks_found = st.length := by
  cases w <;> rfl

theorem completeRecord_completed_at (j : JobRecord) (st : List EnrichedStock)
    (w : Option String) (now : Int) :
    (completeRecord j st w now).completed_at = some now := by
  cases w <;> rfl

theorem completeRecord_error (j : JobRecord) (st : List EnrichedStock)
    (w : Option String) (now : Int) : (completeRecord j st w now).error = j.error := by
  cases w <;> rfl

theorem completeRecord_warning_some (j : JobRecord) (st : List EnrichedStock)
    (w : String) (now : Int) : (completeRecord j st (some w) now).warning = some w := by
  rfl

theorem pyTraceback_ne_empty (e : String) : pyTraceback e ≠ "" := by
  intro h
  have h2 := congrArg String.length h
  simp [pyTraceback, String.length_append] at h2
  exact absurd h2.1 (by decide)

/-! ## Claims -/

/-- C1: a job whose run raises an unrecoverable exception in any phase (in
the source the exceptions that reach the outer handler are those escaping
the scan call or the phase-2 processing loop; the phase-3/4/5 handlers catch
their own) ends with state `failed`, progress reset to 0, a non-empty error
detail recording the cause, a completion timestamp, and no later pipeline
phase is executed. -/
theorem C1_unrecoverable_exception_terminal_record
    (env : PipelineEnv) (p : ScanParams) (job : JobRecord) (e : String)
    (h : env.scanExc = some e ∨
         (env.scanExc = none ∧ env.scanResults ≠ [] ∧ env.enrichExc = some e)) :
    let r := run_scanner_job env p job
    r.1.status = "failed" ∧ r.1.progress = 0 ∧
    r.1.error = some (pyTraceback e) ∧ pyTraceback e ≠ "" ∧
    r.1.completed_at = some env.now ∧
    Phase.filtering ∉ r.2 ∧ Phase.secondaryEnrich ∉ r.2 ∧
    Phase.sentiment ∉ r.2 ∧ Phase.news ∉ r.2 := by
  rcases h with h1 | ⟨h1, h2, h3⟩
  · simp [run_scanner_job, h1, failRecord, pyTraceback_ne_empty]
  · have hne : env.scanResults.isEmpty = false := by
      cases hs : env.scanResults with
      | nil => exact absurd hs h2
      | cons a t => rfl
    simp [run_scanner_job, h1, h3, hne, failRecord, pyTraceback_ne_empty]

/-- Witness for C1 at a concrete scan-failure environment. -/
theorem C1_witness :
    scanFailEnv.scanExc = some "ConnectionRefusedError: TWS not reachable" ∧
    (let r := run_scanner_job scanFailEnv {} (freshJob "w1" 0)
     r.1.status = "failed" ∧ r.1.progress = 0 ∧
     r.1.error = some (pyTraceback "ConnectionRefusedError: TWS not reachable") ∧
     pyTraceback "ConnectionRefusedError: TWS not reachable" ≠ "" ∧
     r.1.completed_at = some scanFailEnv.now ∧
     Phase.filtering ∉ r.2 ∧ Phase.secondaryEnrich ∉ r.2 ∧
     Phase.sentiment ∉ r.2 ∧ Phase.news ∉ r.2) :=
  ⟨rfl, C1_unrecoverable_exception_terminal_record scanFailEnv {} (freshJob "w1" 0)
    "ConnectionRefusedError: TWS not reachable" (Or.inl rfl)⟩

/-- C2: a job whose scan returns no candidates completes with zero results,
progress 100, an explanatory message and a completion timestamp, and no
later phase is executed. -/
theorem C2_empty_scan_completes_early
    (env : PipelineEnv) (p : ScanParams) (job : JobRecord)
    (h1 : env.scanExc = none) (h2 : env.scanResults = []) :
    let r := run_scanner_job env p job
    r.1.status = "completed" ∧ r.1.stocks_found = 0 ∧ r.1.progress = 100 ∧
    r.1.message = "No stocks found matching criteria" ∧
    r.1.completed_at = some env.now ∧ r.2 = [Phase.scan] ∧
    Phase.enrich ∉ r.2 ∧ Phase.filtering ∉ r.2 ∧ Phase.secondaryEnrich ∉ r.2 ∧
    Phase.sentiment ∉ r.2 ∧ Phase.news ∉ r.2 := by
  simp [run_scanner_job, h1, h2]

/-- Witness for C2 at a concrete empty-scan environment. -/
theorem C2_witness :
    emptyScanEnv.scanExc = none ∧ emptyScanEnv.scanResults = [] ∧
    (let r := run_scanner_job emptyScanEnv {} (freshJob "w2" 0)
     r.1.status = "completed" ∧ r.1.stocks_found = 0 ∧ r.1.progress = 100 ∧
     r.1.message = "No stocks found matching criteria" ∧
     r.1.completed_at = some emptyScanEnv.now ∧ r.2 = [Phase.scan] ∧
     Phase.enrich ∉ r.2 ∧ Phase.filtering ∉ r.2 ∧ Phase.secondaryEnrich ∉ r.2 ∧
     Phase.sentiment ∉ r.2 ∧ Phase.news ∉ r.2) :=
  ⟨rfl, rfl, C2_empty_scan_completes_early emptyScanEnv {} (freshJob "w2" 0) rfl rfl⟩

/-- C3 counterexample: a job whose phase-3 worker exceeds its 60-second
timeout mid-enrichment nevertheless terminates `completed` with progress
100, no error detail and one attached candidate — not `failed` with
progress 0 as the claim requires. -/
theorem C3_counterexample :
    timeoutEnv.phase3Exc = some "TimeoutError: short data fetch exceeded 60s" ∧
    (run_scanner_job timeoutEnv looseParams (freshJob "c3" 0)).1.status = "completed" ∧
    (run_scanner_job timeoutEnv looseParams (freshJob "c3" 0)).1.status ≠ "failed" ∧
    (run_scanner_job timeoutEnv looseParams (freshJob "c3" 0)).1.progress = 100 ∧
    (run_scanner_job timeoutEnv looseParams (freshJob "c3" 0)).1.error = none ∧
    (run_scanner_job timeoutEnv looseParams (freshJob "c3" 0)).1.stocks_found = 1 := by
  refine ⟨rfl, ?_⟩
  norm_num [run_scanner_job, timeoutEnv, looseParams, freshJob, stockB, enrichStock,
    inlineScore, apply_supernova_filters, stockPasses, rerank, rerankFrom,
    phase3Stocks, phase4Stocks, phase5Stocks, updateTake, applySentimentData,
    completeRecord, pytrunc, ETF_SYMBOLS]
  decide

/-- C3 amended: there is no whole-job outer timeout; the only timeout is the
60-second wait on the phase-3 worker future, and the exception it raises is
caught, so the job proceeds through the remaining phases and terminates
`completed` with progress 100, no error detail and a result list attached
(the underlying worker thread is moreover not forcibly terminated). -/
theorem C3_amended_phase3_timeout_is_nonfatal
    (env : PipelineEnv) (p : ScanParams) (jid : String) (t : Int) (e : String)
    (h1 : env.scanExc = none) (h2 : env.enrichExc = none)
    (h3 : env.scanResults ≠ []) (h4 : env.phase3Exc = some e) :
    let r := run_scanner_job env p (freshJob jid t)
    r.1.status = "completed" ∧ r.1.status ≠ "failed" ∧ r.1.progress = 100 ∧
    r.1.error = none ∧ r.1.stocks.isSome ∧ r.1.completed_at = some env.now := by
  have hne : env.scanResults.isEmpty = false := by
    cases hs : env.scanResults with
    | nil => exact absurd hs h3
    | cons a t => rfl
  simp only [run_scanner_job, h1, h2, hne, Bool.false_eq_true, if_false]
  split <;>
    simp [completeRecord_status, completeRecord_progress, completeRecord_error,
      completeRecord_stocks, completeRecord_completed_at, freshJob]

/-- Witness for the amended C3 at the concrete timeout environment. -/
theorem C3_witness :
    timeoutEnv.scanExc = none ∧ timeoutEnv.enrichExc = none ∧
    timeoutEnv.scanResults ≠ [] ∧
    timeoutEnv.phase3Exc = some "TimeoutError: short data fetch exceeded 60s" ∧
    (let r := run_scanner_job timeoutEnv looseParams (freshJob "c3w" 0)
     r.1.status = "completed" ∧ r.1.status ≠ "failed" ∧ r.1.progress = 100 ∧
     r.1.error = none ∧ r.1.stocks.isSome ∧ r.1.completed_at = some timeoutEnv.now) :=
  ⟨rfl, rfl, by simp [timeoutEnv], rfl,
   C3_amended_phase3_timeout_is_nonfatal timeoutEnv looseParams "c3w" 0
     "TimeoutError: short data fetch exceeded 60s" rfl rfl (by simp [timeoutEnv]) rfl⟩

/-- C7: when every candidate of a non-empty scan lacks price data (uniform
enrichment failure), the degraded-source warning is attached to the job, the
pipeline still runs the filtering phase, and the job terminates `completed`,
not `failed`. -/
theorem C7_uniform_enrichment_failure_warning
    (env : PipelineEnv) (p : ScanParams) (jid : String) (t : Int)
    (h1 : env.scanExc = none) (h2 : env.enrichExc = none)
    (h3 : env.scanResults ≠ [])
    (h4 : ∀ s ∈ env.scanResults, s.last_price = 0) :
    let r := run_scanner_job env p (freshJob jid t)
    r.1.warning = some TWS_RESTART_WARNING ∧
    r.1.status = "completed" ∧ r.1.status ≠ "failed" ∧
    Phase.filtering ∈ r.2 := by
  have hne : env.scanResults.isEmpty = false := by
    cases hs : env.scanResults with
    | nil => exact absurd hs h3
    | cons a t => rfl
  have hfe : (env.scanResults.map enrichStock).filter
      (fun s => s.pre_market_price == 0) = env.scanResults.map enrichStock := by
    apply List.filter_eq_self.mpr
    intro a ha
    obtain ⟨s, hs, rfl⟩ := List.mem_map.mp ha
    simp [enrichStock, h4 s hs]
  have hl : 0 < env.scanResults.length := List.length_pos.mpr h3
  have hcond : (env.scanResults.length == env.scanResults.length &&
      decide (env.scanResults.length > 0)) = true := by simp [hl]
  simp only [run_scanner_job, h1, h2, hne, Bool.false_eq_true, if_false, hfe,
    List.length_map, hcond, if_true]
  split <;>
    simp [completeRecord_status, completeRecord_warning_some]

/-- Witness for C7 at the concrete degraded environment. -/
theorem C7_witness :
    degradedEnv.scanExc = none ∧ degradedEnv.enrichExc = none ∧
    degradedEnv.scanResults = [zeroPriceStock] ∧
    zeroPriceStock.last_price = 0 ∧
    (run_scanner_job degradedEnv {} (freshJob "c7w" 0)).1.warning =
      some TWS_RESTART_WARNING ∧
    (run_scanner_job degradedEnv {} (freshJob "c7w" 0)).1.status = "completed" :=
  ⟨rfl, rfl, rfl, rfl,
   (C7_uniform_enrichment_failure_warning degradedEnv {} "c7w" 0 rfl rfl
     (by simp [degradedEnv])
     (by intro s hs; simp [degradedEnv] at hs; subst hs; rfl)).1,
   (C7_uniform_enrichment_failure_warning degradedEnv {} "c7w" 0 rfl rfl
     (by simp [degradedEnv])
     (by intro s hs; simp [degradedEnv] at hs; subst hs; rfl)).2.1⟩

/-- The pass predicate of `apply_supernova_filters`, as the conjunction of
its six criteria. -/
theorem stockPasses_iff (p : ScanParams) (s : EnrichedStock) :
    stockPasses p s = true ↔
      (¬(p.exclude_etfs = true ∧ s.symbol.toUpper ∈ ETF_SYMBOLS) ∧
       ¬(p.gap_direction = "up" ∧ s.gap_direction ≠ "up") ∧
       ¬(p.gap_direction = "down" ∧ s.gap_direction ≠ "down") ∧
       ¬(|s.gap_percent| < p.min_gap_percent) ∧
       ¬(0 < p.max_gap_percent ∧ p.max_gap_percent < |s.gap_percent|) ∧
       ¬(0 < p.max_volume ∧ p.max_volume < s.pre_market_volume)) := by
  unfold stockPasses
  split_ifs <;> simp_all

/-- A pointwise-weaker predicate keeps at least as many list elements. -/
theorem filter_length_mono {α : Type} (l : List α) (p q : α → Bool)
    (h : ∀ a ∈ l, p a = true → q a = true) :
    (l.filter p).length ≤ (l.filter q).length := by
  induction l with
  | nil => simp
  | cons a t ih =>
    have ht : ∀ b ∈ t, p b = true → q b = true :=
      fun b hb => h b (List.mem_cons_of_mem a hb)
    have ha := h a (List.mem_cons_self a t)
    by_cases hp : p a = true
    · have hq := ha hp
      simp only [List.filter, hp, hq, List.length_cons]
      exact Nat.succ_le_succ (ih ht)
    · have hp' : p a = false := Bool.eq_false_iff.mpr hp
      cases hq : q a with
      | false => simpa [List.filter, hp', hq] using ih ht
      | true =>
        simp only [List.filter, hp', hq, List.length_cons]
        exact Nat.le_succ_of_le (ih ht)

/-- C5: for a fixed candidate list, tightening any single threshold of the
post-scan filter — raising `min_gap_percent`, or lowering a positive
`max_gap_percent` or `max_volume` — never increases the number of
survivors; and the zero setting of each threshold is its loosest setting
(no constraint). -/
theorem C5_filter_tightening_monotone (stocks : List EnrichedStock) (p : ScanParams) :
    (∀ m m' : Rat, m ≤ m' →
      (apply_supernova_filters stocks { p with min_gap_percent := m' }).length ≤
      (apply_supernova_filters stocks { p with min_gap_percent := m }).length) ∧
    (∀ g g' : Rat, 0 < g' → g' ≤ g →
      (apply_supernova_filters stocks { p with max_gap_percent := g' }).length ≤
      (apply_supernova_filters stocks { p with max_gap_percent := g }).length) ∧
    (∀ v v' : Int, 0 < v' → v' ≤ v →
      (apply_supernova_filters stocks { p with max_volume := v' }).length ≤
      (apply_supernova_filters stocks { p with max_volume := v }).length) ∧
    (∀ m : Rat,
      (apply_supernova_filters stocks { p with min_gap_percent := m }).length ≤
      (apply_supernova_filters stocks { p with min_gap_percent := 0 }).length) ∧
    (∀ g : Rat,
      (apply_supernova_filters stocks { p with max_gap_percent := g }).length ≤
      (apply_supernova_filters stocks { p with max_gap_percent := 0 }).length) ∧
    (∀ v : Int,
      (apply_supernova_filters stocks { p with max_volume := v }).length ≤
      (apply_supernova_filters stocks { p with max_volume := 0 }).length) := by
  refine ⟨?_, ?_, ?_, ?_, ?_, ?_⟩
  · intro m m' hmm'
    apply filter_length_mono
    intro s _ hs
    rw [stockPasses_iff] at hs ⊢
    obtain ⟨a, b, c, d, e, f⟩ := hs
    exact ⟨a, b, c, fun hlt => d (lt_of_lt_of_le hlt hmm'), e, f⟩
  · intro g g' hg' hgg'
    apply filter_length_mono
    intro s _ hs
    rw [stockPasses_iff] at hs ⊢
    obtain ⟨a, b, c, d, e, f⟩ := hs
    exact ⟨a, b, c, d, fun hx => e ⟨hg', lt_of_le_of_lt hgg' hx.2⟩, f⟩
  · intro v v' hv' hvv'
    apply filter_length_mono
    intro s _ hs
    rw [stockPasses_iff] at hs ⊢
    obtain ⟨a, b, c, d, e, f⟩ := hs
    exact ⟨a, b, c, d, e, fun hx => f ⟨hv', lt_of_le_of_lt hvv' hx.2⟩⟩
  · intro m
    apply filter_length_mono
    intro s _ hs
    rw [stockPasses_iff] at hs ⊢
    obtain ⟨a, b, c, _, e, f⟩ := hs
    exact ⟨a, b, c, fun h0 => absurd h0 (not_lt.mpr (abs_nonneg _)), e, f⟩
  · intro g
    apply filter_length_mono
    intro s _ hs
    rw [stockPasses_iff] at hs ⊢
    obtain ⟨a, b, c, d, _, f⟩ := hs
    exact ⟨a, b, c, d, fun hx => absurd hx.1 (lt_irrefl 0), f⟩
  · intro v
    apply filter_length_mono
    intro s _ hs
    rw [stockPasses_iff] at hs ⊢
    obtain ⟨a, b, c, d, e, _⟩ := hs
    exact ⟨a, b, c, d, e, fun hx => absurd hx.1 (lt_irrefl 0)⟩

/-- Witness for C5 at a concrete list and threshold pair. -/
theorem C5_witness :
    (1 : Rat) ≤ 2 ∧
    (apply_supernova_filters [enrichStock stockB]
      { ({} : ScanParams) with min_gap_percent := 2 }).length ≤
    (apply_supernova_filters [enrichStock stockB]
      { ({} : ScanParams) with min_gap_percent := 1 }).length :=
  ⟨by norm_num,
   (C5_filter_tightening_monotone [enrichStock stockB] {}).1 1 2 (by norm_num)⟩

/-- Truncation toward zero of a nonnegative rational is nonnegative. -/
theorem pytrunc_nonneg (q : Rat) (h : 0 ≤ q) : 0 ≤ pytrunc q := by
  unfold pytrunc
  rw [if_neg (not_lt.mpr h)]
  exact Int.floor_nonneg.mpr h

/-- C6 counterexample: with a negative `momentum_score` input the composite
score leaves the claimed interval [0, 100] — at rank 1 with
`momentum_score = -1000` and all other metrics missing the result is -60. -/
theorem C6_counterexample :
    calculate_composite_score 1
      { gap_percent := none, pre_market_volume := none,
        momentum_score := some (-1000) } = -60 ∧
    calculate_composite_score 1
      { gap_percent := none, pre_market_volume := none,
        momentum_score := some (-1000) } < 0 := by
  constructor <;> norm_num [calculate_composite_score, pytrunc]

/-- C6 amended: the composite score (a pure function of its inputs, hence
deterministic) is always at most 100; it is nonnegative whenever the
momentum metric is nonnegative or missing (the momentum bucket
`int(momentum/10)` is the only bucket not clamped below); and each missing
metric contributes exactly the zero default, never a penalty. -/
theorem C6_amended_score_bounds (rank : Int) (b : BarsData) :
    calculate_composite_score rank b ≤ 100 ∧
    (0 ≤ b.momentum_score.getD 0 → 0 ≤ calculate_composite_score rank b) ∧
    calculate_composite_score rank { b with gap_percent := none } =
      calculate_composite_score rank { b with gap_percent := some 0 } ∧
    calculate_composite_score rank { b with pre_market_volume := none } =
      calculate_composite_score rank { b with pre_market_volume := some 0 } ∧
    calculate_composite_score rank { b with momentum_score := none } =
      calculate_composite_score rank { b with momentum_score := some 0 } := by
  refine ⟨min_le_left _ _, ?_, rfl, rfl, rfl⟩
  intro hm
  unfold calculate_composite_score
  refine le_min (by norm_num) ?_
  have h1 : (0:Int) ≤ max 0 (40 - (rank - 1) * 2) := le_max_left _ _
  have h2 : (0:Int) ≤ (if |b.gap_percent.getD 0| > 10 then (30:Int)
      else if |b.gap_percent.getD 0| > 5 then 25
      else if |b.gap_percent.getD 0| > 3 then 20
      else if |b.gap_percent.getD 0| > 1 then 10 else 0) := by
    split_ifs <;> norm_num
  have h3 : (0:Int) ≤ (if b.pre_market_volume.getD 0 > 5000000 then (20:Int)
      else if b.pre_market_volume.getD 0 > 1000000 then 15
      else if b.pre_market_volume.getD 0 > 500000 then 10
      else if b.pre_market_volume.getD 0 > 100000 then 5 else 0) := by
    split_ifs <;> norm_num
  have h4 : (0:Int) ≤ pytrunc (b.momentum_score.getD 0 / 10) :=
    pytrunc_nonneg _ (div_nonneg hm (by norm_num))
  linarith

/-- Witness for the amended C6 at rank 5 with all metrics missing. -/
theorem C6_witness :
    (0 : Rat) ≤ (({} : BarsData)).momentum_score.getD 0 ∧
    0 ≤ calculate_composite_score 5 {} :=
  ⟨by simp, (C6_amended_score_bounds 5 {}).2.1 (by simp)⟩

/-- C8: eviction never removes a `queued` or `running` job regardless of
age, and every job it removes was created at or before the TTL cutoff
(one hour before now) and was in a terminal state. -/
theorem C8_eviction_safety (jobs : List StoredJob) (now : Int) :
    (∀ j ∈ jobs, (j.status = "queued" ∨ j.status = "running") →
      j ∈ cleanup_old_jobs jobs now) ∧
    (∀ j ∈ jobs, j ∉ cleanup_old_jobs jobs now →
      j.created_at ≤ now - JOB_TTL_SECONDS ∧
      j.status ≠ "queued" ∧ j.status ≠ "running") := by
  constructor
  · intro j hj hq
    apply List.mem_filter.mpr
    refine ⟨hj, ?_⟩
    rcases hq with h | h <;> simp [h]
  · intro j hj hnot
    have hp : ¬((decide (j.created_at > now - JOB_TTL_SECONDS) ||
        (j.status == "queued" || j.status == "running")) = true) :=
      fun h => hnot (List.mem_filter.mpr ⟨hj, h⟩)
    simp only [Bool.or_eq_true, decide_eq_true_eq, beq_iff_eq, not_or] at hp
    exact ⟨by omega, hp.2.1, hp.2.2⟩

/-- Witness for C8: an hour-old queued job is kept by eviction. -/
theorem C8_witness :
    oldQueuedJob ∈ [oldQueuedJob] ∧
    (oldQueuedJob.status = "queued" ∨ oldQueuedJob.status = "running") ∧
    oldQueuedJob ∈ cleanup_old_jobs [oldQueuedJob] 1000000 :=
  ⟨by simp, Or.inl rfl,
   (C8_eviction_safety [oldQueuedJob] 1000000).1 oldQueuedJob (by simp) (Or.inl rfl)⟩

/-- The primary counter after `k` allocations, in closed form. -/
theorem primCounter_eq (k : Nat) : primCounter k = 10 + k % 81 := by
  induction k with
  | zero => rfl
  | succ n ih =>
    simp only [primCounter, get_next_client_id, ih]
    split_ifs <;> omega

/-- The identifier issued by the `k`-th primary allocation, in closed form. -/
theorem primIssued_eq (k : Nat) : primIssued k = 10 + k % 81 := by
  simp only [primIssued, get_next_client_id]
  exact primCounter_eq k

/-- The enrichment counter after `k` allocations, in closed form. -/
theorem enrichCounter_eq (k : Nat) : enrichCounter k = 100 + k % 100 := by
  induction k with
  | zero => rfl
  | succ n ih =>
    simp only [enrichCounter, get_next_enrich_client_id, ih]
    split_ifs <;> omega

/-- The identifier issued by the `k`-th enrichment allocation, in closed
form. -/
theorem enrichIssued_eq (k : Nat) : enrichIssued k = 100 + k % 100 := by
  simp only [enrichIssued, get_next_enrich_client_id]
  exact enrichCounter_eq k

/-- C9: primary identifiers stay in [10, 90] and enrichment identifiers in
[100, 199] (disjoint ranges); within one wrap cycle no identifier repeats;
and each counter wraps back to its range floor once its ceiling is
exceeded. -/
theorem C9_allocator_ranges_and_uniqueness :
    (∀ k, 10 ≤ primIssued k ∧ primIssued k ≤ 90) ∧
    (∀ i j, i < 81 → j < 81 → i ≠ j → primIssued i ≠ primIssued j) ∧
    (primIssued 0 = 10 ∧ primIssued 81 = 10) ∧
    (∀ k, 100 ≤ enrichIssued k ∧ enrichIssued k ≤ 199) ∧
    (∀ i j, i < 100 → j < 100 → i ≠ j → enrichIssued i ≠ enrichIssued j) ∧
    (enrichIssued 0 = 100 ∧ enrichIssued 100 = 100) ∧
    (∀ k m, primIssued k ≠ enrichIssued m) := by
  refine ⟨?_, ?_, ?_, ?_, ?_, ?_, ?_⟩
  · intro k
    rw [primIssued_eq]
    have := Nat.mod_lt k (show 0 < 81 by norm_num)
    omega
  · intro i j hi hj hij
    rw [primIssued_eq, primIssued_eq]
    omega
  · rw [primIssued_eq, primIssued_eq]
    omega
  · intro k
    rw [enrichIssued_eq]
    have := Nat.mod_lt k (show 0 < 100 by norm_num)
    omega
  · intro i j hi hj hij
    rw [enrichIssued_eq, enrichIssued_eq]
    omega
  · rw [enrichIssued_eq, enrichIssued_eq]
    omega
  · intro k m
    rw [primIssued_eq, enrichIssued_eq]
    have := Nat.mod_lt k (show 0 < 81 by norm_num)
    omega

/-- Witness for C9: the first two primary allocations differ. -/
theorem C9_witness :
    (0 : Nat) < 81 ∧ (1 : Nat) < 81 ∧ (0 : Nat) ≠ 1 ∧
    primIssued 0 ≠ primIssued 1 :=
  ⟨by norm_num, by norm_num, by norm_num,
   C9_allocator_ranges_and_uniqueness.2.1 0 1 (by norm_num) (by norm_num)
     (by norm_num)⟩

/-- The running maximum of the `max(..., key=...)` fold is the seed or a
list element. -/
theorem foldl_latest_mem (xs : List JobRecord) (x : JobRecord) :
    xs.foldl (fun acc y => if caLt acc.completed_at y.completed_at then y else acc) x
      = x ∨
    xs.foldl (fun acc y => if caLt acc.completed_at y.completed_at then y else acc) x
      ∈ xs := by
  induction xs generalizing x with
  | nil => exact Or.inl rfl
  | cons y ys ih =>
    simp only [List.foldl]
    rcases ih (if caLt x.completed_at y.completed_at then y else x) with h | h
    · rw [h]
      split_ifs
      · exact Or.inr (List.mem_cons_self y ys)
      · exact Or.inl rfl
    · exact Or.inr (List.mem_cons_of_mem y h)

/-- The job returned by `max(completed_jobs, key=...)` is one of the
candidates. -/
theorem pyMaxBy_mem (l : List JobRecord) (r : JobRecord)
    (h : pyMaxByCompletedAt l = some r) : r ∈ l := by
  match l with
  | [] => simp [pyMaxByCompletedAt] at h
  | x :: xs =>
    simp only [pyMaxByCompletedAt, Option.some.injEq] at h
    rcases foldl_latest_mem xs x with h2 | h2
    · rw [h2] at h
      rw [← h]
      exact List.mem_cons_self x xs
    · rw [h] at h2
      exact List.mem_cons_of_mem x h2

/-- C10: a job that completes with zero scan results keeps its result-list
field unset (`None`); `get_latest_screening` only ever returns a completed
job with a non-empty attached list, and returns the `no_data` response when
no job qualifies — so a zero-result completed job is never returned as the
latest screening. -/
theorem C10_zero_result_job_never_latest :
    (∀ (env : PipelineEnv) (p : ScanParams) (jid : String) (t : Int),
      env.scanExc = none → env.scanResults = [] →
      (run_scanner_job env p (freshJob jid t)).1.stocks = none ∧
      (run_scanner_job env p (freshJob jid t)).1.status = "completed") ∧
    (∀ (store : List JobRecord) (r : JobRecord),
      get_latest_screening store = some r →
      r.status = "completed" ∧ ∃ l, r.stocks = some l ∧ l ≠ []) ∧
    (∀ store : List JobRecord, completedJobsWithStocks store = [] →
      get_latest_screening store = none) ∧
    (∀ (env : PipelineEnv) (p : ScanParams) (jid : String) (t : Int)
      (store : List JobRecord) (r : JobRecord),
      env.scanExc = none → env.scanResults = [] →
      get_latest_screening store = some r →
      r ≠ (run_scanner_job env p (freshJob jid t)).1) := by
  have part1 : ∀ (env : PipelineEnv) (p : ScanParams) (jid : String) (t : Int),
      env.scanExc = none → env.scanResults = [] →
      (run_scanner_job env p (freshJob jid t)).1.stocks = none ∧
      (run_scanner_job env p (freshJob jid t)).1.status = "completed" := by
    intro env p jid t h1 h2
    simp [run_scanner_job, h1, h2, freshJob]
  have part2 : ∀ (store : List JobRecord) (r : JobRecord),
      get_latest_screening store = some r →
      r.status = "completed" ∧ ∃ l, r.stocks = some l ∧ l ≠ [] := by
    intro store r h
    simp only [get_latest_screening] at h
    have hm : r ∈ completedJobsWithStocks store := pyMaxBy_mem _ _ h
    have hf := List.mem_filter.mp hm
    obtain ⟨-, hpred⟩ := hf
    simp only [Bool.and_eq_true, beq_iff_eq] at hpred
    refine ⟨hpred.1, ?_⟩
    have hstocks := hpred.2
    unfold jobHasStocks at hstocks
    cases hs : r.stocks with
    | none => rw [hs] at hstocks; simp at hstocks
    | some l =>
      rw [hs] at hstocks
      simp only [Bool.not_eq_true'] at hstocks
      exact ⟨l, rfl, by simpa [List.isEmpty_iff] using hstocks⟩
  refine ⟨part1, part2, ?_, ?_⟩
  · intro store h
    simp [get_latest_screening, h, pyMaxByCompletedAt]
  · intro env p jid t store r h1 h2 h3 heq
    obtain ⟨-, l, hl, -⟩ := part2 store r h3
    have hn := (part1 env p jid t h1 h2).1
    rw [heq] at hl
    rw [hn] at hl
    exact Option.noConfusion hl

/-- Witness for C10 at the concrete empty-scan environment. -/
theorem C10_witness :
    emptyScanEnv.scanExc = none ∧ emptyScanEnv.scanResults = [] ∧
    (run_scanner_job emptyScanEnv {} (freshJob "w10" 0)).1.stocks = none ∧
    (run_scanner_job emptyScanEnv {} (freshJob "w10" 0)).1.status = "completed" :=
  ⟨rfl, rfl,
   (C10_zero_result_job_never_latest.1 emptyScanEnv {} "w10" 0 rfl rfl).1,
   (C10_zero_result_job_never_latest.1 emptyScanEnv {} "w10" 0 rfl rfl).2⟩

/-! ## Preservation lemmas: the phase-3/4/5 loops never change a stock's
symbol, score or rank, nor the order or length of the candidate list. -/

theorem shortableStage_projSSR (t : TickerData) (s : EnrichedStock) :
    projSSR (shortableStage t s) = projSSR s := by
  unfold shortableStage
  cases t.shortableShares <;> simp only [] <;> first | rfl | (split_ifs <;> rfl)

theorem feeStage_projSSR (t : TickerData) (s : EnrichedStock) :
    projSSR (feeStage t s) = projSSR s := by
  unfold feeStage
  cases t.feeTickPrice <;> rfl

theorem floatStage_projSSR (t : TickerData) (s : EnrichedStock) :
    projSSR (floatStage t s) = projSSR s := by
  unfold floatStage
  cases t.mktcap <;> simp only [] <;> first | rfl | (split_ifs <;> rfl)

theorem relVolStage_projSSR (t : TickerData) (s : EnrichedStock) :
    projSSR (relVolStage t s) = projSSR s := by
  unfold relVolStage
  cases t.dailyVolumes <;> simp only [] <;> first | rfl | (split_ifs <;> rfl)

theorem applyShortData_projSSR (t : TickerData) (s : EnrichedStock) :
    projSSR (applyShortData t s) = projSSR s := by
  unfold applyShortData
  rw [relVolStage_projSSR, floatStage_projSSR, feeStage_projSSR, shortableStage_projSSR]

theorem applySentimentData_projSSR (d : SentimentData) (s : EnrichedStock) :
    projSSR (applySentimentData d s) = projSSR s := rfl

theorem applyNewsData_projSSR (r : Option (List String)) (s : EnrichedStock) :
    projSSR (applyNewsData r s) = projSSR s := by
  cases r with
  | none => rfl
  | some articles =>
    simp only [applyNewsData]
    split_ifs <;> rfl

theorem updateTake_map_projSSR (k : Nat) (f : EnrichedStock → EnrichedStock)
    (l : List EnrichedStock) (hf : ∀ x, projSSR (f x) = projSSR x) :
    (updateTake k f l).map projSSR = l.map projSSR := by
  have hcomp : (projSSR ∘ f) = projSSR := funext hf
  simp only [updateTake, List.map_append, List.map_map, hcomp]
  rw [← List.map_append, List.take_append_drop]

theorem phase3Stocks_map_projSSR (env : PipelineEnv) (l : List EnrichedStock) :
    (phase3Stocks env l).map projSSR = l.map projSSR := by
  unfold phase3Stocks
  apply updateTake_map_projSSR
  intro x
  cases env.shortData x.symbol with
  | none => rfl
  | some t => exact applyShortData_projSSR t x

theorem phase4Stocks_map_projSSR (env : PipelineEnv) (l : List EnrichedStock) :
    (phase4Stocks env l).map projSSR = l.map projSSR := by
  unfold phase4Stocks
  apply updateTake_map_projSSR
  intro x
  exact applySentimentData_projSSR _ x

theorem phase5Stocks_map_projSSR (env : PipelineEnv) (l : List EnrichedStock) :
    (phase5Stocks env l).map projSSR = l.map projSSR := by
  unfold phase5Stocks
  cases env.phase5Exc <;> simp only [] <;>
    first
      | rfl
      | (split_ifs <;>
          first
            | rfl
            | exact updateTake_map_projSSR _ _ _ (fun x => applyNewsData_projSSR _ x))

theorem rerankFrom_length (l : List EnrichedStock) : ∀ n : Int,
    (rerankFrom n l).length = l.length := by
  induction l with
  | nil => intro n; rfl
  | cons s rest ih =>
    intro n
    simp only [rerankFrom, List.length_cons, ih]

theorem rerankFrom_mem (l : List EnrichedStock) : ∀ (n : Int) (u : EnrichedStock),
    u ∈ rerankFrom n l → ∃ v ∈ l, u.symbol = v.symbol ∧ u.score = v.score := by
  induction l with
  | nil => intro n u h; simp [rerankFrom] at h
  | cons s rest ih =>
    intro n u h
    simp only [rerankFrom, List.mem_cons] at h
    rcases h with h | h
    · exact ⟨s, List.mem_cons_self s rest, by rw [h], by rw [h]⟩
    · obtain ⟨v, hv, h1, h2⟩ := ih (n + 1) u h
      exact ⟨v, List.mem_cons_of_mem s hv, h1, h2⟩

theorem rerankFrom_map_rank (l : List EnrichedStock) : ∀ n : Int,
    (rerankFrom n l).map (fun s => s.rank) =
      (List.range l.length).map (fun i : Nat => n + (i : Int)) := by
  induction l with
  | nil => intro n; rfl
  | cons s rest ih =>
    intro n
    rw [List.length_cons, List.range_succ_eq_map]
    simp only [rerankFrom, List.map_cons, List.map_map, ih]
    congr 1
    · simp
    · have hfe : ((fun i : Nat => n + (i : Int)) ∘ Nat.succ) =
          fun i : Nat => (n + 1) + (i : Int) := by
        funext i
        simp only [Function.comp]
        push_cast
        ring
      rw [hfe]

theorem map_rank_of_map_projSSR {F R : List EnrichedStock}
    (h : F.map projSSR = R.map projSSR) :
    F.map (fun s => s.rank) = R.map (fun s => s.rank) := by
  have h2 := congrArg (List.map (fun x : String × Int × Int => x.2.2)) h
  simpa [List.map_map, Function.comp, projSSR] using h2

theorem length_of_map_projSSR {F R : List EnrichedStock}
    (h : F.map projSSR = R.map projSSR) : F.length = R.length := by
  have h2 := congrArg List.length h
  simpa [List.length_map] using h2

/-- C4 counterexample: a completed job whose scan returned a low-score stock
(rank 1, no gap, no volume — score 38) ahead of a high-score stock (rank 2,
20 % gap, 5 M volume — score 96) attaches the list in that same order, so
the attached list is not sorted in descending order of score. -/
theorem C4_counterexample :
    (run_scanner_job unsortedEnv looseParams (freshJob "c4" 0)).1.status = "completed" ∧
    ((run_scanner_job unsortedEnv looseParams (freshJob "c4" 0)).1.stocks.getD []).map
      (fun s => s.score) = [38, 96] ∧
    ¬ List.Sorted (· ≥ ·)
      (((run_scanner_job unsortedEnv looseParams (freshJob "c4" 0)).1.stocks.getD []).map
        (fun s => s.score)) := by
  have hsc : ((run_scanner_job unsortedEnv looseParams (freshJob "c4" 0)).1.stocks.getD []).map
      (fun s => s.score) = [38, 96] := by
    norm_num [run_scanner_job, unsortedEnv, looseParams, freshJob, stockA, stockB,
      enrichStock, inlineScore, apply_supernova_filters, stockPasses, rerank, rerankFrom,
      phase3Stocks, phase4Stocks, phase5Stocks, updateTake, applySentimentData,
      completeRecord, pytrunc, ETF_SYMBOLS]
  refine ⟨?_, hsc, ?_⟩
  · norm_num [run_scanner_job, unsortedEnv, looseParams, freshJob, stockA, stockB,
      enrichStock, inlineScore, apply_supernova_filters, stockPasses, rerank, rerankFrom,
      phase3Stocks, phase4Stocks, phase5Stocks, updateTake, applySentimentData,
      completeRecord, pytrunc, ETF_SYMBOLS]
  · rw [hsc]
    decide

/-- C4 amended: every candidate attached to a completed job carries the
composite score computed in the enrichment phase from its original scan
rank, gap and volume, and the attached list keeps the post-filter rerank
order — dense 1-based ranks in list order — rather than being sorted by
score. -/
theorem C4_amended_scores_and_rerank_order
    (env : PipelineEnv) (p : ScanParams) (jid : String) (t : Int)
    (h1 : env.scanExc = none) (h2 : env.enrichExc = none)
    (h3 : env.scanResults ≠ []) :
    let r := run_scanner_job env p (freshJob jid t)
    r.1.status = "completed" ∧
    ∀ l, r.1.stocks = some l →
      (∀ s ∈ l, ∃ orig ∈ env.scanResults, s.symbol = orig.symbol ∧
        s.score = inlineScore orig.rank orig.gap_percent orig.volume) ∧
      l.map (fun s => s.rank) = (List.range l.length).map (fun i : Nat => (i : Int) + 1) := by
  have hne : env.scanResults.isEmpty = false := by
    cases hs : env.scanResults with
    | nil => exact absurd hs h3
    | cons a t => rfl
  have hadd : (fun i : Nat => (1 : Int) + (i : Int)) = fun i : Nat => (i : Int) + 1 := by
    funext i; ring
  simp only [run_scanner_job, h1, h2, hne, Bool.false_eq_true, if_false]
  split
  case isTrue hpos =>
    refine ⟨completeRecord_status _ _ _ _, ?_⟩
    intro l hl
    rw [completeRecord_stocks] at hl
    have hFl := Option.some.inj hl
    subst hFl
    have hmap : (phase5Stocks env (phase4Stocks env (phase3Stocks env
        (rerank (apply_supernova_filters (env.scanResults.map enrichStock) p))))).map projSSR =
        (rerank (apply_supernova_filters (env.scanResults.map enrichStock) p)).map projSSR := by
      rw [phase5Stocks_map_projSSR, phase4Stocks_map_projSSR, phase3Stocks_map_projSSR]
    constructor
    · intro s hs
      have hm : projSSR s ∈ (phase5Stocks env (phase4Stocks env (phase3Stocks env
          (rerank (apply_supernova_filters (env.scanResults.map enrichStock) p))))).map projSSR :=
        List.mem_map_of_mem _ hs
      rw [hmap] at hm
      obtain ⟨u, huR, hpr⟩ := List.mem_map.mp hm
      simp only [projSSR, Prod.mk.injEq] at hpr
      unfold rerank at huR
      obtain ⟨v, hvf, hsym, hsc⟩ := rerankFrom_mem _ _ _ huR
      have hvm : v ∈ env.scanResults.map enrichStock := List.mem_of_mem_filter hvf
      obtain ⟨orig, ho, hoe⟩ := List.mem_map.mp hvm
      refine ⟨orig, ho, ?_, ?_⟩
      · rw [← hpr.1, hsym, ← hoe]
        rfl
      · rw [← hpr.2.1, hsc, ← hoe]
        rfl
    · have hr := map_rank_of_map_projSSR hmap
      have hlen := length_of_map_projSSR hmap
      rw [hr, hlen]
      unfold rerank
      rw [rerankFrom_map_rank, rerankFrom_length, hadd]
  case isFalse hpos =>
    refine ⟨completeRecord_status _ _ _ _, ?_⟩
    intro l hl
    rw [completeRecord_stocks] at hl
    have hFl := Option.some.inj hl
    subst hFl
    have hnil : rerank (apply_supernova_filters (env.scanResults.map enrichStock) p) = [] :=
      List.length_eq_zero.mp (by omega)
    rw [hnil]
    constructor
    · intro s hs
      simp at hs
    · simp

/-- Witness for the amended C4 at the concrete two-stock environment. -/
theorem C4_witness :
    unsortedEnv.scanExc = none ∧ unsortedEnv.enrichExc = none ∧
    unsortedEnv.scanResults ≠ [] ∧
    (run_scanner_job unsortedEnv looseParams (freshJob "c4w" 0)).1.status = "completed" :=
  ⟨rfl, rfl, by simp [unsortedEnv],
   (C4_amended_scores_and_rerank_order unsortedEnv looseParams "c4w" 0 rfl rfl
     (by simp [unsortedEnv])).1⟩

end ScreeningV2
